import Mathlib

/-!
Verification of the google-maps-promise loader (file `src/index.ts`)

A shallow embedding of the TypeScript module: the mutable module-level state
(`urlSettings`, `promise`, `loaded`, `scriptElement`) together with the browser
environment it mutates (the `google` slot of the `window` object and named callback
slots, and the document body holding injected script elements) is modelled as an
explicit state record, and each function of the module becomes a state
transformer.  JavaScript `string | null` fields become `Option String`;
JavaScript truthiness of such a value (`null` and `""` are falsy) is the
`truthy` predicate, and `a || b` on them is `jsOr`.  Promises are modelled by an
identity (`id`, for reference equality of the future returned by `load`) and a
settlement status; `resolve`/`reject` settle only a pending promise, as for real
promises.  The possible behaviours of the external script (invoking the registered
global callback after defining `google.maps`, or firing the error handler) are
events processed by `step`.
-/

namespace GoogleMapsPromise

/-- Settings used to build URL (interface `UrlSettings` of the source;
`string | null` fields are `Option String`). -/
structure UrlSettings where
  url : String
  key : Option String
  client : Option String
  version : Option String
  channel : Option String
  libraries : List String
  language : Option String
  region : Option String
  windowCallbackName : String
deriving DecidableEq, Repr

/-- JavaScript truthiness of a `string | null` value: `null` and `""` are falsy. -/
def truthy : Option String → Bool
  | none => false
  | some s => s != ""

/-- JavaScript `a || b` on `string | null` values: `a` when truthy, else `b`. -/
def jsOr (a b : Option String) : Option String :=
  if truthy a then a else b

/-- String conversion of a `string | null` value under JavaScript string
concatenation (`"x" + null` is `"xnull"`). -/
def jsStr : Option String → String
  | none => "null"
  | some s => s

/-- Default settings used to build URL (`defaultUrlSettings` of the source). -/
def defaultUrlSettings : UrlSettings :=
  { url := "https://maps.googleapis.com/maps/api/js"
    key := none
    client := none
    version := some "3.32"
    channel := none
    libraries := []
    language := none
    region := none
    windowCallbackName := "__google_maps_api_provider_initializator__" }

/-- The list `parts` built by `createUrl` of the source: the sequence of
`push` calls, each guarded exactly as in the source. -/
def createUrlParts (u : UrlSettings) : List String :=
  ["callback=" ++ (if u.windowCallbackName != "" then u.windowCallbackName
                   else defaultUrlSettings.windowCallbackName)]
  ++ (if truthy u.key then ["key=" ++ jsStr u.key] else [])
  ++ (if truthy u.client then
        ["client=" ++ jsStr u.client,
         "v=" ++ jsStr (jsOr u.version defaultUrlSettings.version)]
      else if truthy u.version then ["v=" ++ jsStr u.version] else [])
  ++ (if truthy u.channel then ["channel=" ++ jsStr u.channel] else [])
  ++ (if u.libraries.length > 0 then
        ["libraries=" ++ String.intercalate "," u.libraries] else [])
  ++ (if truthy u.language then ["language=" ++ jsStr u.language] else [])
  ++ (if truthy u.region then ["region=" ++ jsStr u.region] else [])

/-- Function `createUrl` of the source:
the base URL (`urlSettings.url || defaultUrlSettings.url`), a question mark, and
the parts joined with ampersands. -/
def createUrl (u : UrlSettings) : String :=
  (if u.url != "" then u.url else defaultUrlSettings.url)
    ++ "?" ++ String.intercalate "&" (createUrlParts u)

/-- The `window.google` object; its `maps` property (the API namespace) is an
opaque object modelled by a numeric identity, present or absent.  (Objects are
always truthy in JavaScript, so presence is what the truthiness checks of the source
observe.) -/
structure GoogleObj where
  maps : Option Nat
deriving DecidableEq, Repr

/-- The browser `window` as the module uses it: the `google` slot and the set of
names under which a global callback function is currently stored.  Every
function the module stores in a slot is the same closure
`() => resolvePromise(window.google.maps)` over the module-level variables, so a
slot is fully described by its name. -/
structure Window where
  google : Option GoogleObj
  slots : List String
deriving DecidableEq, Repr

/-- Settlement status of the promise of the module.  A resolution carries the value
of `window.google.maps` read at resolution time (`none` when absent). -/
inductive PStatus
  | pending
  | resolvedW (v : Option Nat)
  | rejectedW (msg : String)
deriving DecidableEq, Repr

/-- Resolving a promise settles it only while pending (later calls are
no-ops, as for real promises). -/
def PStatus.resolveWith : PStatus → Option Nat → PStatus
  | .pending, v => .resolvedW v
  | st, _ => st

/-- Rejecting a promise settles it only while pending. -/
def PStatus.rejectWith : PStatus → String → PStatus
  | .pending, msg => .rejectedW msg
  | st, _ => st

/-- The module-level promise: an identity (so that the statement that `load()`
returns the same promise object is expressible) and a settlement status. -/
structure PromiseV where
  id : Nat
  status : PStatus
deriving DecidableEq, Repr

/-- The injected `<script>` element: identity, its `src` (the built URL), and
the callback name embedded in that URL (`callback=` query parameter), which is
the global the script will invoke on success. -/
structure ScriptElem where
  id : Nat
  src : String
  callbackName : String
deriving DecidableEq, Repr

/-- Observable side effects of the loading trigger, logged in order: URL
construction, global callback registration, script injection. -/
inductive Effect
  | urlBuilt (url : String)
  | callbackRegistered (name : String)
  | scriptInjected (id : Nat) (src : String)
deriving DecidableEq, Repr

/-- The complete mutable state: the module variables (`urlSettings`,
`promise`, `loaded`, `scriptElement`), the `window`, the document body (ids of
attached script elements), a fresh-identity counter, and the effect log. -/
structure LoaderState where
  urlSettings : UrlSettings
  promise : PromiseV
  loaded : Bool
  scriptElement : Option ScriptElem
  window : Window
  body : List Nat
  nextId : Nat
  effects : List Effect
deriving DecidableEq, Repr

/-- Function `init` of the source: reset `urlSettings` to a copy of the defaults, clear
`loaded`, and create a fresh unsettled promise (with fresh identity). -/
def init (s : LoaderState) : LoaderState :=
  { s with
    urlSettings := defaultUrlSettings
    loaded := false
    promise := { id := s.nextId, status := .pending }
    nextId := s.nextId + 1 }

/-- Assignment `window[name] = fn`: store a callback under `name` (overwriting keeps the
slot present). -/
def registerSlot (w : Window) (name : String) : Window :=
  { w with slots := if name ∈ w.slots then w.slots else w.slots ++ [name] }

/-- Deletion `delete window[name]` guarded by a presence check (deleting an absent slot
is a no-op either way). -/
def deleteSlot (w : Window) (name : String) : Window :=
  { w with slots := w.slots.filter (fun n => n != name) }

/-- The non-short-circuit branch of `createLoader`: build the URL, create the
script element with that `src`, register the global callback under
`urlSettings.windowCallbackName`, and append the element to `document.body`.
The `callbackName` field of the element records the name its URL carries
(`windowCallbackName || default`, per `createUrl`). -/
def injectScript (s : LoaderState) : LoaderState :=
  let url := createUrl s.urlSettings
  let cbName := s.urlSettings.windowCallbackName
  let elem : ScriptElem :=
    { id := s.nextId
      src := url
      callbackName := if cbName != "" then cbName
                      else defaultUrlSettings.windowCallbackName }
  { s with
    scriptElement := some elem
    window := registerSlot s.window cbName
    body := s.body ++ [elem.id]
    nextId := s.nextId + 1
    effects := s.effects ++
      [.urlBuilt url, .callbackRegistered cbName, .scriptInjected elem.id url] }

/-- Function `createLoader` of the source: if `window.google && window.google.maps`,
resolve the promise immediately with that namespace and return; otherwise
inject the loader script. -/
def createLoader (s : LoaderState) : LoaderState :=
  match s.window.google with
  | some g =>
    match g.maps with
    | some m =>
      { s with promise := { s.promise with
          status := s.promise.status.resolveWith (some m) } }
    | none => injectScript s
  | none => injectScript s

/-- Function `load` of the source: on the first call of a session set `loaded` and run
`createLoader`; always return the `promise` of the module (its identity). -/
def load (s : LoaderState) : LoaderState × Nat :=
  if s.loaded then (s, s.promise.id)
  else
    let s' := createLoader { s with loaded := true }
    (s', s'.promise.id)

/-- Function `cleanupEnvironment` of the source: `init()` first (so `urlSettings` is
already reset when the callback slot is deleted), then delete `window.google`
if present, delete `window[urlSettings.windowCallbackName]` if present (the
name now in effect, i.e. the default), and finally detach and null the script
element if one exists. -/
def cleanupEnvironment (s : LoaderState) : LoaderState :=
  let s1 := init s
  let s2 := { s1 with window := { s1.window with google := none } }
  let s3 := { s2 with
    window := deleteSlot s2.window s2.urlSettings.windowCallbackName }
  match s3.scriptElement with
  | some e =>
    { s3 with body := s3.body.filter (fun i => i != e.id), scriptElement := none }
  | none => s3

/-- What `release` returns: `Promise.resolve()` (an already-resolved future,
after synchronous cleanup), or the chained promise
`promise.then(cleanupEnvironment)` on the session promise with the given
identity. -/
inductive ReleaseReturn
  | immediate
  | chained (pid : Nat)
deriving DecidableEq, Repr

/-- Function `release` of the source: if not `loaded`, clean up synchronously and return
an already-resolved future; otherwise return `promise.then(cleanupEnvironment)`. -/
def release (s : LoaderState) : LoaderState × ReleaseReturn :=
  if s.loaded then (s, .chained s.promise.id)
  else (cleanupEnvironment s, .immediate)

/-- Settlement semantics of the future `promise.then(cleanupEnvironment)`
returned by a started `release`, applied to the state current when the session
promise settles.  `then` with only an `onFulfilled` handler runs
`cleanupEnvironment` on fulfillment and fulfills; on rejection it does not run
the handler and rejects the chained future with the same error.  `none` while
the session promise is still pending; otherwise the state after the
continuation together with `none` (chained future fulfilled) or `some msg`
(chained future rejected with `msg`). -/
def releaseSettle (s : LoaderState) : Option (LoaderState × Option String) :=
  match s.promise.status with
  | .pending => none
  | .resolvedW _ => some (cleanupEnvironment s, none)
  | .rejectedW msg => some (s, some msg)

/-- Function `onError` of the source, the `onerror` handler of the script
element: reject the (current) promise with
`` new URIError(`The script ${scriptElement && scriptElement.src} is not accessible.`) ``,
reading the current `scriptElement` variable of the module. -/
def fireScriptError (s : LoaderState) : LoaderState :=
  let srcStr := match s.scriptElement with
    | some e => e.src
    | none => "null"
  { s with promise := { s.promise with
      status := s.promise.status.rejectWith
        ("The script " ++ srcStr ++ " is not accessible.") } }

/-- The registered global callback `() => resolvePromise(window.google.maps)`:
resolve the current promise with the current `window.google.maps`. -/
def invokeCallback (s : LoaderState) : LoaderState :=
  { s with promise := { s.promise with
      status := s.promise.status.resolveWith (s.window.google.bind GoogleObj.maps) } }

/-- Behaviours of the injected external script: it either fails to load
(firing `onerror`), or loads successfully, defining `window.google.maps` and
then invoking the global callback named in its URL. -/
inductive Event
  | scriptError
  | scriptSuccess (m : Nat)
deriving DecidableEq, Repr

/-- Process one script event.  Events originate from the injected script
element, so they do nothing when none exists. -/
def step (s : LoaderState) (e : Event) : LoaderState :=
  match e with
  | .scriptError =>
    match s.scriptElement with
    | some _ => fireScriptError s
    | none => s
  | .scriptSuccess m =>
    match s.scriptElement with
    | some el =>
      let s1 := { s with window := { s.window with google := some { maps := some m } } }
      if el.callbackName ∈ s1.window.slots then invokeCallback s1 else s1
    | none => s

/-- A window holding nothing the module cares about. -/
def emptyWindow : Window := { google := none, slots := [] }

/-- The module state right after import (the top-level `init()` call at line
52 of the source), over a given initial `window`. -/
def initialState (w : Window) : LoaderState :=
  { urlSettings := defaultUrlSettings
    promise := { id := 0, status := .pending }
    loaded := false
    scriptElement := none
    window := w
    body := []
    nextId := 1
    effects := [] }

/-- Iterated calls of `load`, keeping the state part. -/
def loadIter : Nat → LoaderState → LoaderState
  | 0, s => s
  | n + 1, s => loadIter n (load s).1

/-- Iterated calls of `release`, keeping the state part. -/
def releaseIter : Nat → LoaderState → LoaderState
  | 0, s => s
  | n + 1, s => releaseIter n (release s).1

/-- Number of script injections in the effect log. -/
def injectionCount (s : LoaderState) : Nat :=
  s.effects.countP (fun e => match e with | .scriptInjected _ _ => true | _ => false)

/-- Number of global callback registrations in the effect log. -/
def registrationCount (s : LoaderState) : Nat :=
  s.effects.countP (fun e => match e with | .callbackRegistered _ => true | _ => false)

/-- Truthiness test of a query part for being the version parameter: does the
part start with the two characters of `v=`. -/
def isVParam (p : String) : Bool := p.data.take 2 == ['v', '=']

lemma isVParam_callback (x : String) : isVParam ("callback=" ++ x) = false := by
  obtain ⟨d⟩ := x; rfl

lemma isVParam_key (x : String) : isVParam ("key=" ++ x) = false := by
  obtain ⟨d⟩ := x; rfl

lemma isVParam_client (x : String) : isVParam ("client=" ++ x) = false := by
  obtain ⟨d⟩ := x; rfl

lemma isVParam_channel (x : String) : isVParam ("channel=" ++ x) = false := by
  obtain ⟨d⟩ := x; rfl

lemma isVParam_libraries (x : String) : isVParam ("libraries=" ++ x) = false := by
  obtain ⟨d⟩ := x; rfl

lemma isVParam_language (x : String) : isVParam ("language=" ++ x) = false := by
  obtain ⟨d⟩ := x; rfl

lemma isVParam_region (x : String) : isVParam ("region=" ++ x) = false := by
  obtain ⟨d⟩ := x; rfl

lemma isVParam_v (x : String) : isVParam ("v=" ++ x) = true := by
  obtain ⟨d⟩ := x; rfl

/-- Claim C3: for the configuration with key `K`, libraries `places,geometry`,
language `ru`, region `RU` and every other field at its default, `createUrl`
returns exactly the expected URL, with the parameters in the fixed order and
the libraries comma-joined. -/
theorem createUrl_sample_configuration :
    createUrl { defaultUrlSettings with
                key := some "K"
                libraries := ["places", "geometry"]
                language := some "ru"
                region := some "RU" }
      = "https://maps.googleapis.com/maps/api/js?callback=__google_maps_api_provider_initializator__&key=K&v=3.32&libraries=places,geometry&language=ru&region=RU" := by
  rfl

/-- Claim C10: for each of the optional fields `key`, `client`, `version`,
`channel`, `language`, `region`, an empty-string value yields exactly the same
URL as a null value (inclusion is decided by truthiness), and an empty-string
base `url` falls back to the default base URL. -/
theorem empty_string_like_null (u : UrlSettings) :
    createUrl { u with key := some "" } = createUrl { u with key := none }
    ∧ createUrl { u with client := some "" } = createUrl { u with client := none }
    ∧ createUrl { u with version := some "" } = createUrl { u with version := none }
    ∧ createUrl { u with channel := some "" } = createUrl { u with channel := none }
    ∧ createUrl { u with language := some "" } = createUrl { u with language := none }
    ∧ createUrl { u with region := some "" } = createUrl { u with region := none }
    ∧ createUrl { u with url := "" } = createUrl { u with url := defaultUrlSettings.url } := by
  refine ⟨?_, ?_, ?_, ?_, ?_, ?_, ?_⟩ <;> rfl

lemma any_guard (c : Prop) [Decidable c] (x : String) (f : String → Bool) :
    (if c then [x] else []).any f = (decide c && f x) := by
  by_cases h : c <;> simp [h]

/-- Claim C4: whenever the `client` field is truthy, the parts list contains a
`client` parameter immediately followed by a `v` parameter whose value is the
configured version when truthy and the default `3.32` otherwise; without
`client`, a `v` parameter appears iff `version` is truthy; and the
configuration with client `C` and null version yields a URL containing
`client=C&v=3.32`. -/
theorem client_forces_version (u : UrlSettings) :
    (truthy u.client = true →
      ∃ l r, createUrlParts u
          = l ++ ["client=" ++ jsStr u.client,
                  "v=" ++ (if truthy u.version then jsStr u.version else "3.32")] ++ r)
    ∧ (truthy u.client = false →
        (createUrlParts u).any isVParam = truthy u.version)
    ∧ createUrl { defaultUrlSettings with client := some "C", version := none }
        = "https://maps.googleapis.com/maps/api/js?callback=__google_maps_api_provider_initializator__&client=C&v=3.32" := by
  refine ⟨?_, ?_, rfl⟩
  · intro hc
    refine ⟨["callback=" ++ (if u.windowCallbackName != "" then u.windowCallbackName
                             else defaultUrlSettings.windowCallbackName)]
            ++ (if truthy u.key then ["key=" ++ jsStr u.key] else []),
            (if truthy u.channel then ["channel=" ++ jsStr u.channel] else [])
            ++ (if u.libraries.length > 0 then
                  ["libraries=" ++ String.intercalate "," u.libraries] else [])
            ++ (if truthy u.language then ["language=" ++ jsStr u.language] else [])
            ++ (if truthy u.region then ["region=" ++ jsStr u.region] else []), ?_⟩
    cases hv : truthy u.version <;>
      simp [createUrlParts, hc, hv, jsOr, jsStr, defaultUrlSettings]
  · intro hc
    simp only [createUrlParts, hc, if_false, Bool.false_eq_true, List.any_append,
      List.any_cons, List.any_nil, any_guard, isVParam_callback, isVParam_key,
      isVParam_channel, isVParam_libraries, isVParam_language, isVParam_region,
      isVParam_v]
    cases hv : truthy u.version <;> simp [hv]

/-- Witness for C4 at the concrete configurations of the claim. -/
theorem client_forces_version_witness :
    (∃ l r, createUrlParts { defaultUrlSettings with client := some "C", version := none }
        = l ++ ["client=" ++ jsStr (some "C"),
                "v=" ++ (if truthy (none : Option String) then jsStr (none : Option String)
                         else "3.32")] ++ r)
    ∧ (createUrlParts defaultUrlSettings).any isVParam = truthy defaultUrlSettings.version := by
  constructor
  · exact (client_forces_version
      { defaultUrlSettings with client := some "C", version := none }).1 (by decide)
  · exact (client_forces_version defaultUrlSettings).2.1 (by decide)

lemma injectScript_loaded (s : LoaderState) : (injectScript s).loaded = s.loaded := rfl

lemma injectScript_promise (s : LoaderState) : (injectScript s).promise = s.promise := rfl

lemma createLoader_loaded (s : LoaderState) : (createLoader s).loaded = s.loaded := by
  unfold createLoader
  split <;> (try split) <;> rfl

lemma createLoader_promiseId (s : LoaderState) :
    (createLoader s).promise.id = s.promise.id := by
  unfold createLoader
  split <;> (try split) <;> rfl

lemma load_of_loaded (s : LoaderState) (h : s.loaded = true) :
    load s = (s, s.promise.id) := by
  simp [load, h]

lemma load_fst_loaded (s : LoaderState) : (load s).1.loaded = true := by
  unfold load
  cases h : s.loaded with
  | true => simp [h]
  | false => simp [createLoader_loaded]

lemma load_snd (s : LoaderState) : (load s).2 = s.promise.id := by
  unfold load
  cases h : s.loaded with
  | true => simp
  | false => simp [createLoader_promiseId]

lemma load_fst_promiseId (s : LoaderState) : (load s).1.promise.id = s.promise.id := by
  unfold load
  cases h : s.loaded with
  | true => simp
  | false => simp [createLoader_promiseId]

lemma loadIter_of_loaded (n : Nat) (s : LoaderState) (h : s.loaded = true) :
    loadIter n s = s := by
  induction n with
  | zero => rfl
  | succ n ih => rw [loadIter, load_of_loaded s h, ih]

lemma loadIter_promiseId (n : Nat) (s : LoaderState) :
    (loadIter n s).promise.id = s.promise.id := by
  induction n generalizing s with
  | zero => rfl
  | succ n ih => rw [loadIter, ih, load_fst_promiseId]

lemma step_promiseId (s : LoaderState) (e : Event) :
    (step s e).promise.id = s.promise.id := by
  unfold step
  cases e with
  | scriptError =>
    cases s.scriptElement <;> rfl
  | scriptSuccess m =>
    cases s.scriptElement with
    | none => rfl
    | some el =>
      simp only []
      split <;> rfl

lemma injectionCount_injectScript (s : LoaderState) :
    injectionCount (injectScript s) = injectionCount s + 1 := by
  simp [injectScript, injectionCount, List.countP_append, List.countP_cons]

lemma registrationCount_injectScript (s : LoaderState) :
    registrationCount (injectScript s) = registrationCount s + 1 := by
  simp [injectScript, registrationCount, List.countP_append, List.countP_cons]

lemma injectionCount_createLoader (s : LoaderState) :
    injectionCount (createLoader s) ≤ injectionCount s + 1 := by
  unfold createLoader
  split
  · split
    · exact Nat.le_succ _
    · exact le_of_eq (injectionCount_injectScript s)
  · exact le_of_eq (injectionCount_injectScript s)

lemma registrationCount_createLoader (s : LoaderState) :
    registrationCount (createLoader s) ≤ registrationCount s + 1 := by
  unfold createLoader
  split
  · split
    · exact Nat.le_succ _
    · exact le_of_eq (registrationCount_injectScript s)
  · exact le_of_eq (registrationCount_injectScript s)

/-- Claim C1: for every state and every `n ≥ 1`, calling `load` `n` times gives
the same state as calling it once (so the loading side effect happens at most
on the first call), every call returns the promise of the session (the same
future object each time, before or after any settlement event), and one call
adds at most one script injection and at most one callback registration to the
effect log. -/
theorem load_idempotent_trigger (s : LoaderState) (n : Nat) (h : 1 ≤ n) :
    loadIter n s = (load s).1
    ∧ (∀ k, (load (loadIter k s)).2 = (load s).2)
    ∧ (∀ e, (load (step (load s).1 e)).2 = (load s).2)
    ∧ injectionCount (load s).1 ≤ injectionCount s + 1
    ∧ registrationCount (load s).1 ≤ registrationCount s + 1 := by
  refine ⟨?_, ?_, ?_, ?_, ?_⟩
  · obtain ⟨m, rfl⟩ := Nat.exists_eq_add_of_le h
    rw [Nat.add_comm, loadIter, loadIter_of_loaded m _ (load_fst_loaded s)]
  · intro k
    rw [load_snd, load_snd, loadIter_promiseId]
  · intro e
    rw [load_snd, load_snd, step_promiseId, load_fst_promiseId]
  · unfold load
    cases hl : s.loaded with
    | true => simp
    | false => simpa using injectionCount_createLoader { s with loaded := true }
  · unfold load
    cases hl : s.loaded with
    | true => simp
    | false => simpa using registrationCount_createLoader { s with loaded := true }

/-- Witness for C1: two calls of `load` on the fresh module state behave as one
call, return the same promise, and inject at most one script. -/
theorem load_idempotent_trigger_witness :
    loadIter 2 (initialState emptyWindow) = (load (initialState emptyWindow)).1
    ∧ (load (loadIter 2 (initialState emptyWindow))).2 = (load (initialState emptyWindow)).2
    ∧ injectionCount (load (initialState emptyWindow)).1
        ≤ injectionCount (initialState emptyWindow) + 1 := by
  obtain ⟨h1, h2, _, h4, _⟩ := load_idempotent_trigger (initialState emptyWindow) 2 (by decide)
  exact ⟨h1, h2 2, h4⟩

lemma fireScriptError_loaded (s : LoaderState) :
    (fireScriptError s).loaded = s.loaded := rfl

lemma step_loaded (s : LoaderState) (e : Event) : (step s e).loaded = s.loaded := by
  unfold step
  cases e with
  | scriptError => cases s.scriptElement <;> rfl
  | scriptSuccess m =>
    cases s.scriptElement with
    | none => rfl
    | some el =>
      simp only []
      split <;> rfl

lemma step_scriptSuccess_not_rejected (t : LoaderState) (m : Nat) (msg : String)
    (h : t.promise.status = PStatus.pending) :
    (step t (Event.scriptSuccess m)).promise.status ≠ PStatus.rejectedW msg := by
  simp only [step]
  split
  · split
    · simp [invokeCallback, h, PStatus.resolveWith]
    · simp [h]
  · simp [h]

lemma load_not_loaded_no_ns (s : LoaderState) (h1 : s.loaded = false)
    (h2 : s.window.google = none) :
    (load s).1 = injectScript { s with loaded := true } := by
  unfold load
  rw [h1]
  simp only [Bool.false_eq_true, if_false]
  unfold createLoader
  have hw : ({ s with loaded := true } : LoaderState).window.google = none := h2
  rw [hw]

/-- Claim C5: if at trigger time (first `load` of a session, reading the window
fresh at that moment) the namespace `google.maps` already exists, `load`
resolves the shared promise immediately with that namespace and changes nothing
else: no script element is created, nothing is appended to the body, no global
callback is registered, and no effect is logged. -/
theorem preexisting_namespace_short_circuit (s : LoaderState) (g : GoogleObj) (m : Nat)
    (h1 : s.loaded = false) (h2 : s.window.google = some g) (h3 : g.maps = some m)
    (h4 : s.promise.status = PStatus.pending) :
    load s = ({ s with
                loaded := true
                promise := { id := s.promise.id, status := PStatus.resolvedW (some m) } },
              s.promise.id) := by
  obtain ⟨u, p, l, se, w, b, ni, ef⟩ := s
  obtain ⟨wg, ws⟩ := w
  obtain ⟨pid, pst⟩ := p
  obtain ⟨gm⟩ := g
  simp only at h1 h2 h3 h4
  subst h1 h2 h3 h4
  rfl

/-- Witness for C5 on a window already holding the namespace. -/
theorem preexisting_namespace_short_circuit_witness :
    load (initialState { google := some { maps := some 5 }, slots := [] })
      = ({ initialState { google := some { maps := some 5 }, slots := [] } with
           loaded := true
           promise := { id := (initialState { google := some { maps := some 5 }, slots := [] }).promise.id
                        status := PStatus.resolvedW (some 5) } },
         (initialState { google := some { maps := some 5 }, slots := [] }).promise.id) :=
  preexisting_namespace_short_circuit
    (initialState { google := some { maps := some 5 }, slots := [] })
    { maps := some 5 } 5 rfl rfl rfl rfl

/-- Claim C6: in a session started by `load` (no pre-existing namespace), the
shared promise is rejected exactly when the injected script signals a load
failure: the error event rejects it with a message naming the URL of the
script; a success signal never yields a rejection, and without any signal the
promise is unsettled; after the rejection every further `load` call returns the
same (still rejected) promise unchanged. -/
theorem rejection_iff_script_error (s s1 : LoaderState)
    (h1 : s.loaded = false) (h2 : s.window.google = none)
    (h3 : s.promise.status = PStatus.pending)
    (hs1 : s1 = (load s).1) :
    (step s1 Event.scriptError).promise.status
        = PStatus.rejectedW ("The script " ++ createUrl s.urlSettings ++ " is not accessible.")
    ∧ (step s1 Event.scriptError).promise.id = (load s).2
    ∧ (∀ m msg, (step s1 (Event.scriptSuccess m)).promise.status ≠ PStatus.rejectedW msg)
    ∧ (∀ msg, s1.promise.status ≠ PStatus.rejectedW msg)
    ∧ load (step s1 Event.scriptError) = (step s1 Event.scriptError, (load s).2) := by
  have hshape : s1 = injectScript { s with loaded := true } := by
    rw [hs1, load_not_loaded_no_ns s h1 h2]
  refine ⟨?_, ?_, ?_, ?_, ?_⟩
  · rw [hshape]
    simp [injectScript, step, fireScriptError, h3, PStatus.rejectWith]
  · rw [step_promiseId, hs1, load_fst_promiseId, load_snd]
  · intro m msg
    refine step_scriptSuccess_not_rejected s1 m msg ?_
    rw [hshape]
    exact h3
  · intro msg
    rw [hshape]
    simp [injectScript, h3]
  · have hl : (step s1 Event.scriptError).loaded = true := by
      rw [step_loaded, hs1, load_fst_loaded]
    rw [load_of_loaded _ hl, step_promiseId, hs1, load_fst_promiseId, load_snd]

/-- Witness for C6 on the fresh module state over an empty window. -/
theorem rejection_iff_script_error_witness :
    (step (load (initialState emptyWindow)).1 Event.scriptError).promise.status
        = PStatus.rejectedW ("The script "
            ++ createUrl (initialState emptyWindow).urlSettings ++ " is not accessible.")
    ∧ load (step (load (initialState emptyWindow)).1 Event.scriptError)
        = (step (load (initialState emptyWindow)).1 Event.scriptError,
           (load (initialState emptyWindow)).2) := by
  obtain ⟨a, _, _, _, e⟩ := rejection_iff_script_error (initialState emptyWindow)
    (load (initialState emptyWindow)).1 rfl rfl rfl rfl
  exact ⟨a, e⟩

/-- Full characterization of `cleanupEnvironment`: settings reset to defaults,
`loaded` cleared, a fresh pending promise, `window.google` deleted, the slot
under the default callback name (the name configured at cleanup time, after the
reset) deleted, the script element detached from the body and nulled. -/
lemma cleanupEnvironment_eq (s : LoaderState) :
    cleanupEnvironment s =
      { urlSettings := defaultUrlSettings
        promise := { id := s.nextId, status := PStatus.pending }
        loaded := false
        scriptElement := none
        window := { google := none
                    slots := s.window.slots.filter
                      (fun n => n != defaultUrlSettings.windowCallbackName) }
        body := match s.scriptElement with
                | some e => s.body.filter (fun i => i != e.id)
                | none => s.body
        nextId := s.nextId + 1
        effects := s.effects } := by
  obtain ⟨u, p, l, se, w, b, ni, ef⟩ := s
  obtain ⟨wg, ws⟩ := w
  cases se <;> rfl

lemma release_not_loaded (s : LoaderState) (h : s.loaded = false) :
    release s = (cleanupEnvironment s, ReleaseReturn.immediate) := by
  simp [release, h]

lemma cleanup_not_loaded (s : LoaderState) : (cleanupEnvironment s).loaded = false := by
  rw [cleanupEnvironment_eq]

lemma releaseIter_not_loaded (n : Nat) (s : LoaderState) (h : s.loaded = false) :
    (releaseIter n s).loaded = false := by
  induction n generalizing s with
  | zero => exact h
  | succ n ih =>
    rw [releaseIter, release_not_loaded s h]
    exact ih _ (cleanup_not_loaded s)

/-- A fresh session started over an empty window by one `load` call. -/
def runStarted : LoaderState := (load (initialState emptyWindow)).1

/-- The started session after the injected script signalled a load failure. -/
def runRejected : LoaderState := step runStarted Event.scriptError

/-- The started session after the injected script loaded and invoked the
callback with namespace `7`. -/
def runResolved : LoaderState := step runStarted (Event.scriptSuccess 7)

/-- The rejection message of the failed session over the default settings. -/
def failureMessage : String :=
  "The script https://maps.googleapis.com/maps/api/js?callback=__google_maps_api_provider_initializator__&v=3.32 is not accessible."

/-- Counterexample to claim C2: in the concrete session whose script failed,
the future of the session is rejected, `release` returns the chained future
`promise.then(cleanupEnvironment)`, and processing its settlement leaves the
state completely unchanged (the module still `loaded`, the script element still
present) while the future of `release` is rejected with the load error: cleanup
does not proceed on a rejected settlement, and waiting on the rejected future
makes `release` fail. -/
theorem release_after_rejection_cex :
    runRejected.promise.status = PStatus.rejectedW failureMessage
    ∧ release runRejected = (runRejected, ReleaseReturn.chained runRejected.promise.id)
    ∧ releaseSettle runRejected = some (runRejected, some failureMessage)
    ∧ runRejected.loaded = true
    ∧ runRejected.scriptElement.isSome = true :=
  ⟨rfl, rfl, rfl, rfl, rfl⟩

/-- Claim C2 as amended: a `release` called on a started session returns the
future chained on the session promise; that future stays unsettled while the
session promise is pending; when the session promise resolves, cleanup runs
(exactly the one `cleanupEnvironment` continuation) and the `release` future
resolves; when the session promise rejects, cleanup does not run and the
`release` future rejects with the same error. -/
theorem release_settlement_behavior (s : LoaderState) (h : s.loaded = true) :
    release s = (s, ReleaseReturn.chained s.promise.id)
    ∧ (s.promise.status = PStatus.pending → releaseSettle s = none)
    ∧ (∀ v, s.promise.status = PStatus.resolvedW v →
        releaseSettle s = some (cleanupEnvironment s, none))
    ∧ (∀ msg, s.promise.status = PStatus.rejectedW msg →
        releaseSettle s = some (s, some msg)) := by
  refine ⟨by simp [release, h], ?_, ?_, ?_⟩
  · intro hp
    simp [releaseSettle, hp]
  · intro v hp
    simp [releaseSettle, hp]
  · intro msg hp
    simp [releaseSettle, hp]

/-- Witness for the amended C2 on the concrete resolved session. -/
theorem release_settlement_behavior_witness :
    release runResolved = (runResolved, ReleaseReturn.chained runResolved.promise.id)
    ∧ releaseSettle runResolved = some (cleanupEnvironment runResolved, none) := by
  obtain ⟨a, _, c, _⟩ := release_settlement_behavior runResolved rfl
  exact ⟨a, c (some 7) rfl⟩

/-- Counterexample to claim C7: in the concrete session whose future settled by
rejection, calling `release` and processing the settlement of its chained
future leaves the script element attached (handle not nulled), the global
callback slot still registered, and a further `load` still returns the promise
of the old session, not a brand-new one. -/
theorem release_reset_rejected_cex :
    runRejected.promise.status = PStatus.rejectedW failureMessage
    ∧ releaseSettle runRejected = some (runRejected, some failureMessage)
    ∧ runRejected.scriptElement.isSome = true
    ∧ runRejected.body = [1]
    ∧ runRejected.window.slots = [defaultUrlSettings.windowCallbackName]
    ∧ (load runRejected).2 = runRejected.promise.id :=
  ⟨rfl, rfl, rfl, rfl, rfl, rfl⟩

/-- Claim C7 as amended: after a started session resolves and the `release`
continuation completes, the configuration equals the defaults, the namespace
slot is gone, the callback slot (registered under the default name) is gone,
the script element is detached from the body and the handle nulled, and the
next `load` call returns a promise different from the one of the old session. -/
theorem release_resets_after_resolution (s : LoaderState) (v : Option Nat)
    (h1 : s.loaded = true) (h2 : s.promise.status = PStatus.resolvedW v)
    (hid : s.promise.id < s.nextId)
    (hslots : s.window.slots = [defaultUrlSettings.windowCallbackName]) :
    release s = (s, ReleaseReturn.chained s.promise.id)
    ∧ releaseSettle s = some (cleanupEnvironment s, none)
    ∧ (cleanupEnvironment s).urlSettings = defaultUrlSettings
    ∧ (cleanupEnvironment s).loaded = false
    ∧ (cleanupEnvironment s).window.google = none
    ∧ (cleanupEnvironment s).window.slots = []
    ∧ (cleanupEnvironment s).scriptElement = none
    ∧ (∀ e, s.scriptElement = some e → e.id ∉ (cleanupEnvironment s).body)
    ∧ (load (cleanupEnvironment s)).2 ≠ s.promise.id := by
  refine ⟨by simp [release, h1], by simp [releaseSettle, h2], ?_, ?_, ?_, ?_, ?_, ?_, ?_⟩
  · rw [cleanupEnvironment_eq]
  · rw [cleanupEnvironment_eq]
  · rw [cleanupEnvironment_eq]
  · rw [cleanupEnvironment_eq, hslots]
    simp
  · rw [cleanupEnvironment_eq]
  · intro e he
    rw [cleanupEnvironment_eq]
    simp only [he, List.mem_filter]
    simp
  · rw [load_snd, cleanupEnvironment_eq]
    exact (Nat.ne_of_lt hid).symm

/-- Witness for the amended C7 on the concrete resolved session. -/
theorem release_resets_after_resolution_witness :
    releaseSettle runResolved = some (cleanupEnvironment runResolved, none)
    ∧ (cleanupEnvironment runResolved).window.slots = []
    ∧ (cleanupEnvironment runResolved).scriptElement = none
    ∧ (load (cleanupEnvironment runResolved)).2 ≠ runResolved.promise.id := by
  obtain ⟨_, a, _, _, _, e, f, _, hne⟩ :=
    release_resets_after_resolution runResolved (some 7) rfl rfl (by decide) rfl
  exact ⟨a, e, f, hne⟩

/-- Claim C8: `release` on a never-started session performs cleanup
synchronously (the state returned is already the cleaned one) and returns an
already-resolved future; and however often `release` is repeated afterwards,
every further call again returns an already-resolved future (repetition is
safe, including before any `load`). -/
theorem release_before_start (s : LoaderState) (h : s.loaded = false) :
    release s = (cleanupEnvironment s, ReleaseReturn.immediate)
    ∧ (∀ n, (release (releaseIter n (release s).1)).2 = ReleaseReturn.immediate) := by
  refine ⟨release_not_loaded s h, ?_⟩
  intro n
  have h1 : ((release s).1).loaded = false := by
    rw [release_not_loaded s h]
    exact cleanup_not_loaded s
  rw [release_not_loaded _ (releaseIter_not_loaded n _ h1)]

/-- Witness for C8 on the fresh module state. -/
theorem release_before_start_witness :
    release (initialState emptyWindow)
      = (cleanupEnvironment (initialState emptyWindow), ReleaseReturn.immediate)
    ∧ (release (releaseIter 1 (release (initialState emptyWindow)).1)).2
        = ReleaseReturn.immediate := by
  obtain ⟨a, b⟩ := release_before_start (initialState emptyWindow) rfl
  exact ⟨a, b 1⟩

/-- Claim C9: the slot deleted during cleanup is the one under the callback
name configured at cleanup time — the default name, since the configuration is
reset before the deletion — independently of the name configured when `load`
registered the callback; every slot under a different name survives, so a slot
registered under a custom name is not the one deleted. -/
theorem cleanup_deletes_cleanup_time_name (s : LoaderState) :
    (cleanupEnvironment s).window.slots
      = s.window.slots.filter (fun n => n != defaultUrlSettings.windowCallbackName)
    ∧ (∀ name, name ∈ s.window.slots → name ≠ defaultUrlSettings.windowCallbackName →
        name ∈ (cleanupEnvironment s).window.slots) := by
  constructor
  · rw [cleanupEnvironment_eq]
  · intro name hmem hne
    rw [cleanupEnvironment_eq]
    simp only [List.mem_filter]
    exact ⟨hmem, by simpa using hne⟩

/-- A session loaded under the custom callback name `myCb`. -/
def customStart : LoaderState :=
  (load { initialState emptyWindow with
          urlSettings := { defaultUrlSettings with windowCallbackName := "myCb" } }).1

/-- Witness for C9: the slot registered under the custom name `myCb` at load
time survives the cleanup, which deletes only the default name. -/
theorem cleanup_deletes_cleanup_time_name_witness :
    "myCb" ∈ (cleanupEnvironment customStart).window.slots :=
  (cleanup_deletes_cleanup_time_name customStart).2 "myCb" (by decide) (by decide)

end GoogleMapsPromise
